import Mathlib

/-!
Verification of the TradSimpChinese plugin (plugin.py) against its design
specification.

The plugin's document transformer (`HTML_TextProcessor`) is a callback-driven
walk over the event stream produced by Python's `html.parser.HTMLParser`
(constructed with `convert_charrefs=False`).  The parser itself is an external
collaborator (spec section 1, "Non-goals"), so the embedding models a document
as the list of structural events the parser delivers, each event carrying the
literal source text that the corresponding handler can observe:

  * `startTag tag attrs literal` - `handle_starttag(tag, attrs)` with
    `get_starttag_text() = literal`; `tag` and the attribute names in `attrs`
    are lower-cased by the parser;
  * `endTag tag` - `handle_endtag(tag)`; its source form is `</tag>`;
  * `startEndTag tag attrs literal` - `handle_startendtag`;
  * `data text` - `handle_data(text)`;
  * `comment d` - `handle_comment(d)` for the source `<!--d-->`;
  * `pi d`, `entityRef n`, `charRef n`, `decl d`, `unknownDecl d` likewise.

Text is modelled as `List Char`.  All regular expressions used by the code are
alternations of single characters except the `lang="zh"` attribute pattern,
which is modelled by an explicit left-to-right scanner (`zhSub`) mirroring
`re.sub` with the pattern `lang="zh-\w+"|lang="zh"` (IGNORECASE); the word
character class is modelled as ASCII alphanumerics plus underscore, which
covers every language code the program manipulates.
-/

namespace TradSimp

/-- Characters for which Python's `str.isspace` is true (the Unicode
whitespace set used by `str.strip()` as well). -/
def isPySpace (c : Char) : Bool :=
  c = ' ' || c = '\t' || c = '\n' || c = '\x0b' || c = '\x0c' || c = '\r' ||
  c = '\x1c' || c = '\x1d' || c = '\x1e' || c = '\x1f' ||
  c = '\u0085' || c = '\u00a0' || c = '\u1680' ||
  ('\u2000' ≤ c && c ≤ '\u200a') ||
  c = '\u2028' || c = '\u2029' || c = '\u202f' || c = '\u205f' || c = '\u3000'

/-- Python `text.isspace()`: non-empty and all whitespace. -/
def pyIsSpace (t : List Char) : Bool :=
  !t.isEmpty && t.all isPySpace

/-- Python `s.strip()` with no argument: remove leading and trailing
whitespace. -/
def pyStrip (t : List Char) : List Char :=
  ((t.dropWhile isPySpace).reverse.dropWhile isPySpace).reverse

/-- The criteria tuple built by `guiTradSimpChinese.getCriteria`; field names
follow the index constants `INPUT_SOURCE` .. `PUNC_REGEX` of plugin.py.
`punc_regex` holds the key alternation of the compiled punctuation regex
(every key is a single character), `punc_dict` the substitution table. -/
structure Criteria where
  input_source : Nat
  conversion_type : Nat
  input_locale : Nat
  output_locale : Nat
  use_target_phrases : Bool
  quotation_type : Nat
  output_orientation : Nat
  update_punctuation : Bool
  punc_dict : List (Char × Char)
  punc_regex : Option (List Char)
deriving DecidableEq

/-- Per-run processor configuration: the converter collaborator
(`self.textConverter`), the resolved language attribute string
(`self.language`, `None` modelled as `none`), and `self.force_stylesheet`. -/
structure Config where
  textConverter : List Char → List Char
  language : Option (List Char)
  force_stylesheet : Bool

/-- Python's rendering of `self.language` inside an f-string:
`None` prints as "None". -/
def pyOptStr : Option (List Char) → List Char
  | none => "None".data
  | some s => s

/-- `self.trad_to_simp_quotes` from `HTML_TextProcessor.__init__`. -/
def trad_to_simp_quotes : List (Char × Char) :=
  [('「', '“'), ('」', '”'), ('『', '‘'), ('』', '’')]

/-- `self.simp_to_trad_quotes` from `HTML_TextProcessor.__init__`. -/
def simp_to_trad_quotes : List (Char × Char) :=
  [('“', '「'), ('”', '」'), ('‘', '『'), ('’', '』')]

/-- Substitution by a regex that is an alternation of the (single-character)
keys of `tbl`: each key character is replaced by its image, every other
character is copied. -/
def subSingleChars (tbl : List (Char × Char)) (t : List Char) : List Char :=
  t.map fun c => ((tbl.lookup c).getD c)

/-- `HTML_TextProcessor.replace_quotations`. -/
def replace_quotations (crit : Criteria) (t : List Char) : List Char :=
  if crit.quotation_type = 1 then subSingleChars trad_to_simp_quotes t
  else if crit.quotation_type = 2 then subSingleChars simp_to_trad_quotes t
  else t

/-- `HTML_TextProcessor.multiple_replace` specialised to the punctuation
regexes of plugin.py, whose patterns are alternations of the single-character
keys of `dict`. -/
def multiple_replace (keys : List Char) (dict : List (Char × Char))
    (t : List Char) : List Char :=
  t.map fun c => if keys.contains c then (dict.lookup c).getD c else c

/-- ASCII model of the regex class `\w`. -/
def isWordChar (c : Char) : Bool :=
  c.isAlphanum || c = '_'

/-- Case-insensitive pattern prefix removal: the pattern is given in lower
case; input characters are lowered before comparison (IGNORECASE). -/
def stripCaseless : List Char → List Char → Option (List Char)
  | [], l => some l
  | _ :: _, [] => none
  | p :: ps, c :: cs => if c.toLower = p then stripCaseless ps cs else none

/-- The literal part shared by the two alternatives of
`re.compile(r'lang=\"zh-\w+\"|lang=\"zh\"', re.IGNORECASE)`. -/
def zhPat : List Char := ['l', 'a', 'n', 'g', '=', '"', 'z', 'h']

/-- Attempt to match the `zh_re` regex at the head of the input; on success
return the remainder after the match.  The first alternative
`lang="zh-\w+"` is tried first (a greedy word-character run followed by a
closing quote); otherwise the second alternative `lang="zh"`. -/
def zhTry (l : List Char) : Option (List Char) :=
  match stripCaseless zhPat l with
  | none => none
  | some ('-' :: rest) =>
    match rest.span isWordChar with
    | ([], _) => none
    | (_ :: _, '"' :: r2) => some r2
    | (_ :: _, _) => none
  | some ('"' :: rest) => some rest
  | some _ => none

/-- Fuelled left-to-right scan of `re.sub`: at each position try the pattern;
on a match emit the replacement and continue after the match, otherwise copy
one character.  The fuel is the input length; every step consumes at least
one character, so the fuel never runs out on the initial call. -/
def zhSubAux (repl : List Char) : Nat → List Char → List Char
  | 0, l => l
  | _ + 1, [] => []
  | fuel + 1, c :: cs =>
    match zhTry (c :: cs) with
    | some rest => repl ++ zhSubAux repl fuel rest
    | none => c :: zhSubAux repl fuel cs

/-- `self.zh_re.sub(repl, l)`: replace every occurrence of `lang="zh"` or
`lang="zh-..."` (case-insensitive) with `repl`. -/
def zhSub (repl : List Char) (l : List Char) : List Char :=
  zhSubAux repl l.length l

/-- The parser events delivered to `HTML_TextProcessor`; see the module
comment for the correspondence with the handler callbacks. -/
inductive Node where
  | startTag (tag : String) (attrs : List String) (literal : List Char)
  | endTag (tag : String)
  | startEndTag (tag : String) (attrs : List String) (literal : List Char)
  | data (text : List Char)
  | comment (d : List Char)
  | pi (d : List Char)
  | entityRef (name : List Char)
  | charRef (name : List Char)
  | decl (d : List Char)
  | unknownDecl (d : List Char)
deriving DecidableEq

/-- `seltext_start_tag` of plugin.py. -/
def seltext_start_tag : List Char := "PI_SELTEXT_START".data

/-- `seltext_end_tag` of plugin.py. -/
def seltext_end_tag : List Char := "PI_SELTEXT_END".data

/-- The stylesheet link inserted by `handle_endtag` before `</head>` when
`force_stylesheet` is set. -/
def stylesheet_link : List Char :=
  "<link rel=\"stylesheet\" type=\"text/css\" href=\"./Styles/stylesheet.css\"/>".data

/-- The root-tag step of `handle_starttag`: when the tag is `html` and no
`xml:lang` attribute is present, append `xml:` followed by the printed
language value just before the closing `>`
(`text[:-1] + f' xml:{self.language}' + ">"`). -/
def rootLangAppend (cfg : Config) (tag : String) (attrs : List String)
    (text : List Char) : List Char :=
  if tag = "html" ∧ attrs.contains "xml:lang" = false then
    text.dropLast ++ (" xml:".data ++ pyOptStr cfg.language) ++ ['>']
  else text

/-- `HTML_TextProcessor.handle_starttag`: substitute `lang="zh*"` attributes
when converting with a non-NoChange mode and a set language, then apply the
root-tag `xml:lang` append step. -/
def handle_starttag (cfg : Config) (crit : Criteria) (converting : Bool)
    (tag : String) (attrs : List String) (literal : List Char) : List Char :=
  let text :=
    if converting = true ∧ crit.conversion_type ≠ 0 ∧ cfg.language ≠ none then
      zhSub (pyOptStr cfg.language) literal
    else literal
  rootLangAppend cfg tag attrs text

/-- `HTML_TextProcessor.handle_endtag`. -/
def handle_endtag (cfg : Config) (tag : String) : List Char :=
  (if tag = "head" ∧ cfg.force_stylesheet = true then stylesheet_link else [])
    ++ ('<' :: '/' :: tag.data ++ ['>'])

/-- `HTML_TextProcessor.handle_startendtag`: note that the guard tests
`INPUT_SOURCE == 0`, not the converting flag. -/
def handle_startendtag (cfg : Config) (crit : Criteria) (_tag : String)
    (_attrs : List String) (literal : List Char) : List Char :=
  if crit.input_source = 0 ∧ crit.conversion_type ≠ 0 ∧ cfg.language ≠ none then
    zhSub (pyOptStr cfg.language) literal
  else literal

/-- `HTML_TextProcessor.handle_data`. -/
def handle_data (cfg : Config) (crit : Criteria) (converting : Bool)
    (text : List Char) : List Char :=
  if pyIsSpace text then text
  else
    let t1 :=
      if converting then
        let a :=
          if crit.output_orientation = 0 ∨ crit.output_orientation = 2 then
            if crit.quotation_type ≠ 0 then replace_quotations crit text else text
          else text
        let b :=
          match crit.punc_regex with
          | some keys => multiple_replace keys crit.punc_dict a
          | none => a
        if crit.output_orientation = 1 then
          if crit.quotation_type ≠ 0 then replace_quotations crit b else b
        else b
      else text
    if crit.conversion_type ≠ 0 ∧ converting = true then cfg.textConverter t1
    else t1

/-- The `converting` flag update of `HTML_TextProcessor.handle_comment`:
sentinel comments toggle the flag only when `INPUT_SOURCE == 2`. -/
def commentFlag (crit : Criteria) (converting : Bool) (d : List Char) : Bool :=
  if crit.input_source = 2 ∧ pyStrip d = seltext_start_tag then true
  else if crit.input_source = 2 ∧ pyStrip d = seltext_end_tag then false
  else converting

/-- One parser event: returns the updated `converting` flag and the text
appended to `self.result` by the corresponding handler. -/
def stepNode (cfg : Config) (crit : Criteria) (converting : Bool) :
    Node → Bool × List Char
  | .startTag tag attrs lit =>
    (converting, handle_starttag cfg crit converting tag attrs lit)
  | .endTag tag => (converting, handle_endtag cfg tag)
  | .startEndTag tag attrs lit =>
    (converting, handle_startendtag cfg crit tag attrs lit)
  | .data t => (converting, handle_data cfg crit converting t)
  | .comment d =>
    (commentFlag crit converting d, "<!--".data ++ d ++ "-->".data)
  | .pi d => (converting, '<' :: '?' :: d ++ ['>'])
  | .entityRef n => (converting, '&' :: n ++ [';'])
  | .charRef n => (converting, '&' :: '#' :: n ++ [';'])
  | .decl d => (converting, '<' :: '!' :: d ++ ['>'])
  | .unknownDecl d => (converting, '<' :: '!' :: d ++ ['>'])

/-- Fold of `stepNode` over the event list, accumulating the emitted text. -/
def runNodes (cfg : Config) (crit : Criteria) : Bool → List Node → Bool × List Char
  | b, [] => (b, [])
  | b, n :: ns =>
    ((runNodes cfg crit (stepNode cfg crit b n).1 ns).1,
     (stepNode cfg crit b n).2 ++ (runNodes cfg crit (stepNode cfg crit b n).1 ns).2)

/-- The initial `converting` flag set by `processText`: false for
selected-text scope (`INPUT_SOURCE == 2`), true otherwise. -/
def initFlag (crit : Criteria) : Bool :=
  if crit.input_source = 2 then false else true

/-- `HTML_TextProcessor.processText`: reset, walk the document events, and
join the emitted fragments. -/
def processText (cfg : Config) (crit : Criteria) (doc : List Node) : List Char :=
  (runNodes cfg crit (initFlag crit) doc).2

/-- The literal source text of one parser event (the text the parser consumed
to produce it).  End tags are carried in the canonical `</tag>` form that the
parser reports. -/
def nodeSource : Node → List Char
  | .startTag _ _ lit => lit
  | .endTag tag => '<' :: '/' :: tag.data ++ ['>']
  | .startEndTag _ _ lit => lit
  | .data t => t
  | .comment d => "<!--".data ++ d ++ "-->".data
  | .pi d => '<' :: '?' :: d ++ ['>']
  | .entityRef n => '&' :: n ++ [';']
  | .charRef n => '&' :: '#' :: n ++ [';']
  | .decl d => '<' :: '!' :: d ++ ['>']
  | .unknownDecl d => '<' :: '!' :: d ++ ['>']

/-- The source text of a whole document: concatenation of its events'
sources. -/
def docSource (doc : List Node) : List Char :=
  (doc.map nodeSource).flatten

/-- The master horizontal-to-vertical presentation-form table
`_h2v_master_dict` of plugin.py, in source order. -/
def h2vMaster : List (Char × Char) :=
  [('。', '︒'), ('、', '︑'), ('；', '︔'), ('：', '︓'), ('！', '︕'),
   ('？', '︖'), ('「', '﹁'), ('」', '﹂'), ('〈', '︿'), ('〉', '﹀'),
   ('『', '﹃'), ('』', '﹄'), ('《', '︽'), ('》', '︾'), ('【', '︻'),
   ('（', '︵'), ('】', '︼'), ('）', '︶'), ('〖', '︗'), ('〗', '︘'),
   ('〔', '︹'), ('｛', '︷'), ('〕', '︺'), ('｝', '︸'), ('［', '﹇'),
   ('］', '﹈'), ('…', '︙'), ('‥', '︰'), ('—', '︱'), ('＿', '︳'),
   ('﹏', '︴'), ('，', '︐')]

/-- The preference values read by `guiTradSimpChinese.getCriteria`;
`punc_omits` is the string of master-table marks NOT to be used. -/
structure Prefs where
  input_source : Nat
  conversion_type : Nat
  input_locale : Nat
  output_locale : Nat
  use_target_phrases : Bool
  quotation_type : Nat
  output_orientation : Nat
  update_punctuation : Bool
  punc_omits : List Char
deriving DecidableEq

/-- The criteria tuple of `getCriteria` before the punctuation fields are
filled in (`punc_dict = {}` is modelled as the empty table, `punc_regex =
None` as `none`). -/
def baseCriteria (p : Prefs) : Criteria :=
  { input_source := p.input_source, conversion_type := p.conversion_type,
    input_locale := p.input_locale, output_locale := p.output_locale,
    use_target_phrases := p.use_target_phrases,
    quotation_type := p.quotation_type,
    output_orientation := p.output_orientation,
    update_punctuation := p.update_punctuation,
    punc_dict := [], punc_regex := none }

/-- The local `h2v` dictionary of `getCriteria`: the master table without the
keys contained in the omission string. -/
def punc_h2v (omits : List Char) : List (Char × Char) :=
  h2vMaster.filter fun kv => !(omits.contains kv.1)

/-- The local `v2h` dictionary of `getCriteria`: the inverse of `h2v`. -/
def punc_v2h (omits : List Char) : List (Char × Char) :=
  (punc_h2v omits).map fun kv => (kv.2, kv.1)

/-- `guiTradSimpChinese.getCriteria`: build the criteria tuple; the
punctuation table and regex are derived from the master table, the omission
string, the orientation and the punctuation flag.  The regex alternation is
represented by its key list. -/
def getCriteria (p : Prefs) : Criteria :=
  if p.update_punctuation = true ∧ p.punc_omits.length ≠ h2vMaster.length then
    if p.output_orientation = 1 then
      { baseCriteria p with punc_dict := punc_v2h p.punc_omits,
                            punc_regex := some ((punc_v2h p.punc_omits).map Prod.fst) }
    else if p.output_orientation = 2 then
      { baseCriteria p with punc_dict := punc_h2v p.punc_omits,
                            punc_regex := some ((punc_h2v p.punc_omits).map Prod.fst) }
    else baseCriteria p
  else baseCriteria p

/-- `get_language_code` of plugin.py: the language tag derived from the
conversion mode and locales; the string "None" is the no-tag sentinel. -/
def get_language_code (crit : Criteria) : String :=
  if crit.conversion_type = 1 then
    if crit.output_locale = 0 then "zh-CN" else "None"
  else if crit.conversion_type = 2 then
    if crit.output_locale = 0 then "zh-CN"
    else if crit.output_locale = 1 then "zh-HK"
    else "zh-TW"
  else if crit.conversion_type = 3 then
    if crit.input_locale = 0 then
      if crit.output_locale = 1 then "zh-HK"
      else if crit.output_locale = 2 then "zh-TW"
      else "None"
    else if crit.input_locale = 1 then
      if crit.output_locale = 0 then "zh-CN" else "None"
    else if crit.input_locale = 2 then
      if crit.output_locale = 0 then "zh-CN" else "None"
    else "None"
  else "None"

/-- `get_configuration` of plugin.py: resolve the criteria to an OpenCC
conversion-variant identifier, or the sentinels 'no_conversion' /
'unsupported_conversion'. -/
def get_configuration (crit : Criteria) : String :=
  if crit.conversion_type = 0 then "no_conversion"
  else if crit.conversion_type = 1 then
    if crit.input_locale = 0 then
      if crit.output_locale = 0 then "t2s"
      else if crit.output_locale = 3 then "t2jp"
      else "unsupported_conversion"
    else if crit.input_locale = 1 then
      if crit.output_locale ≠ 0 then "unsupported_conversion" else "hk2s"
    else if crit.input_locale = 2 then
      if crit.output_locale ≠ 0 then "unsupported_conversion"
      else if crit.use_target_phrases then "tw2s" ++ "p" else "tw2s"
    else "unsupported_conversion"
  else if crit.conversion_type = 2 then
    if crit.input_locale = 0 then
      if crit.output_locale = 0 then "s2t"
      else if crit.output_locale = 1 then "s2hk"
      else if crit.output_locale = 2 then
        if crit.use_target_phrases then "s2tw" ++ "p" else "s2tw"
      else "unsupported_conversion"
    else if crit.input_locale = 3 then
      if crit.output_locale = 0 then "jp2t" else "unsupported_conversion"
    else "unsupported_conversion"
  else
    if crit.input_locale = 0 then
      if crit.output_locale = 0 then "no_conversion"
      else if crit.output_locale = 1 then "t2hk"
      else if crit.output_locale = 2 then "t2tw"
      else "unsupported_conversion"
    else if crit.input_locale = 1 then
      if crit.output_locale = 0 then "hk2t"
      else if crit.output_locale = 1 then "no_conversion"
      else "unsupported_conversion"
    else if crit.input_locale = 2 then
      if crit.output_locale = 0 then "tw2t"
      else if crit.output_locale = 2 then "no_conversion"
      else "unsupported_conversion"
    else "unsupported_conversion"

/-- The quote-remapping pass of `handle_data` viewed as one function:
applied only when the quotation policy is not NoChange. -/
def applyQuote (crit : Criteria) (t : List Char) : List Char :=
  if crit.quotation_type ≠ 0 then replace_quotations crit t else t

/-- The punctuation pass of `handle_data` viewed as one function: applied
only when the punctuation matcher is present. -/
def applyPunc (crit : Criteria) (t : List Char) : List Char :=
  match crit.punc_regex with
  | some keys => multiple_replace keys crit.punc_dict t
  | none => t

/-- The final script-conversion pass of `handle_data` viewed as one
function: the converter collaborator is invoked only when the conversion
mode is not NoChange. -/
def applyConv (cfg : Config) (crit : Criteria) (t : List Char) : List Char :=
  if crit.conversion_type ≠ 0 then cfg.textConverter t else t

/-- Events whose handlers re-emit the original literal source text
unconditionally: comments, processing instructions, entity references,
numeric character references, declarations. -/
def literalKind : Node → Bool
  | .comment _ | .pi _ | .entityRef _ | .charRef _ | .decl _ | .unknownDecl _ => true
  | _ => false

/-- The keys of the master punctuation table. -/
def h2vKeys : List Char := h2vMaster.map Prod.fst

/-! Concrete configurations and criteria used by witnesses and
counterexamples. -/

/-- An identity converter collaborator. -/
def idConv : List Char → List Char := fun t => t

/-- A converter stub that marks its argument, making converter invocations
visible in outputs. -/
def markConv : List Char → List Char := fun t => '#' :: t

/-- A processor configuration with no language tag. -/
def cfgPlain : Config :=
  { textConverter := idConv, language := none, force_stylesheet := false }

/-- A processor configuration whose language attribute was resolved to
`zh-CN` (as `_ok_clicked` sets it). -/
def cfgZh : Config :=
  { textConverter := idConv, language := some "lang=\"zh-CN\"".data,
    force_stylesheet := false }

/-- A configuration like `cfgZh` but with the marking converter. -/
def cfgZhMark : Config :=
  { textConverter := markConv, language := some "lang=\"zh-CN\"".data,
    force_stylesheet := false }

/-- The all-default criteria tuple: whole book, no conversion, no quote or
orientation change, no punctuation table. -/
def critBase : Criteria :=
  { input_source := 0, conversion_type := 0, input_locale := 0,
    output_locale := 0, use_target_phrases := true, quotation_type := 0,
    output_orientation := 0, update_punctuation := false,
    punc_dict := [], punc_regex := none }

/-! Helper lemmas about the transformer fold. -/

/-- With the converting flag off, `handle_data` re-emits the text run
unchanged. -/
lemma handle_data_not_converting (cfg : Config) (crit : Criteria)
    (t : List Char) : handle_data cfg crit false t = t := by
  simp [handle_data]

/-- A comment that is not the start sentinel cannot switch the flag on. -/
lemma commentFlag_false (crit : Criteria) (d : List Char)
    (h : pyStrip d ≠ seltext_start_tag) : commentFlag crit false d = false := by
  simp [commentFlag, h]

/-- A comment that is not the end sentinel cannot switch the flag off. -/
lemma commentFlag_true (crit : Criteria) (d : List Char)
    (h : pyStrip d ≠ seltext_end_tag) : commentFlag crit true d = true := by
  simp [commentFlag, h]

/-- The fold distributes over list concatenation. -/
lemma runNodes_append (cfg : Config) (crit : Criteria) (b : Bool)
    (xs ys : List Node) :
    runNodes cfg crit b (xs ++ ys) =
      ((runNodes cfg crit (runNodes cfg crit b xs).1 ys).1,
       (runNodes cfg crit b xs).2 ++
         (runNodes cfg crit (runNodes cfg crit b xs).1 ys).2) := by
  induction xs generalizing b with
  | nil => simp [runNodes]
  | cons n ns ih => simp [runNodes, ih, List.append_assoc]

/-- While no start-sentinel comment has been seen, the flag stays off. -/
lemma flag_false_of_no_start (cfg : Config) (crit : Criteria) (xs : List Node)
    (h : ∀ d, Node.comment d ∈ xs → pyStrip d ≠ seltext_start_tag) :
    (runNodes cfg crit false xs).1 = false := by
  induction xs with
  | nil => rfl
  | cons n ns ih =>
    have hstep : (stepNode cfg crit false n).1 = false := by
      cases n
      case comment d =>
        exact commentFlag_false crit d (h d (List.mem_cons_self _ _))
      all_goals rfl
    have : (runNodes cfg crit false (n :: ns)).1 =
        (runNodes cfg crit (stepNode cfg crit false n).1 ns).1 := rfl
    rw [this, hstep]
    exact ih fun d hd => h d (List.mem_cons_of_mem _ hd)

/-- While no end-sentinel comment is seen, the flag stays on. -/
lemma flag_true_of_no_end (cfg : Config) (crit : Criteria) (xs : List Node)
    (h : ∀ d, Node.comment d ∈ xs → pyStrip d ≠ seltext_end_tag) :
    (runNodes cfg crit true xs).1 = true := by
  induction xs with
  | nil => rfl
  | cons n ns ih =>
    have hstep : (stepNode cfg crit true n).1 = true := by
      cases n
      case comment d =>
        exact commentFlag_true crit d (h d (List.mem_cons_self _ _))
      all_goals rfl
    have : (runNodes cfg crit true (n :: ns)).1 =
        (runNodes cfg crit (stepNode cfg crit true n).1 ns).1 := rfl
    rw [this, hstep]
    exact ih fun d hd => h d (List.mem_cons_of_mem _ hd)

/-- Criteria: trad-to-trad, Mainland to Mainland. -/
def critT2T : Criteria := { critBase with conversion_type := 3 }

/-- Criteria: trad-to-simp, Taiwan to Mainland, target phrasing on. -/
def critTW2SP : Criteria :=
  { critBase with conversion_type := 1, input_locale := 2, output_locale := 0, use_target_phrases := true }

/-- Criteria: trad-to-trad, Hong Kong to Taiwan. -/
def critHK2TW : Criteria :=
  { critBase with conversion_type := 3, input_locale := 1, output_locale := 2 }

/-- Criteria: simp-to-trad, Japan to Hong Kong. -/
def critJP2HK : Criteria :=
  { critBase with conversion_type := 2, input_locale := 3, output_locale := 1 }

/-- Criteria: no conversion, Taiwan to Hong Kong locales selected. -/
def critNoconvTWHK : Criteria :=
  { critBase with input_locale := 2, output_locale := 1 }

/-- Criteria exercising the Horizontal orientation chain: trad-to-simp
conversion, trad-to-simp quotes, horizontal orientation, and a one-entry
vertical-to-horizontal punctuation table. -/
def critHoriz : Criteria :=
  { critBase with conversion_type := 1, quotation_type := 1, output_orientation := 1, punc_dict := [('﹁', '「')], punc_regex := some ['﹁'] }

/-- Criteria with every text rewrite active: trad-to-simp conversion,
trad-to-simp quotes, vertical orientation, one-entry punctuation table. -/
def critAllOn : Criteria :=
  { critBase with conversion_type := 1, quotation_type := 1, output_orientation := 2, punc_dict := [('。', '︒')], punc_regex := some ['。'] }

/-! The claims. -/

/-- C4: the conversion resolver `get_configuration` maps
(TradToTrad, Mainland, Mainland) to the no-conversion sentinel,
(TradToSimp, Taiwan, Mainland) with target phrasing to the Taiwan-phrased
variant tw2sp, and both (TradToTrad, HongKong, Taiwan) and
(SimpToTrad, Japan, HongKong) to the unsupported sentinel. -/
theorem c4_resolver_cases :
    get_configuration critT2T = "no_conversion" ∧
    get_configuration critTW2SP = "tw2sp" ∧
    get_configuration critHK2TW = "unsupported_conversion" ∧
    get_configuration critJP2HK = "unsupported_conversion" := by
  decide

/-- C8: `get_language_code` returns zh-HK for SimpToTrad with output locale
HongKong whatever the input locale is, and the 'None' sentinel for mode
NoChange whatever the locales are. -/
theorem c8_language_code (crit crit2 : Criteria)
    (hm : crit.conversion_type = 2) (ho : crit.output_locale = 1)
    (hn : crit2.conversion_type = 0) :
    get_language_code crit = "zh-HK" ∧ get_language_code crit2 = "None" := by
  constructor
  · simp [get_language_code, hm, ho]
  · simp [get_language_code, hn]

/-- C8 witness: the SimpToTrad/HongKong case with the Japan input locale, and
the NoChange case with Taiwan/HongKong locales. -/
theorem c8_language_code_witness :
    get_language_code critJP2HK = "zh-HK" ∧
    get_language_code critNoconvTWHK = "None" :=
  c8_language_code critJP2HK critNoconvTWHK (by decide) (by decide) (by decide)

/-- C3: on a non-whitespace text run processed while converting, the
NoChange and Vertical orientations apply the quote pass before the
punctuation pass, the Horizontal orientation applies the punctuation pass
before the quote pass, and in both cases the converter collaborator is
applied last (each pass being conditional on its own flag, as `applyQuote`,
`applyPunc` and `applyConv` record). -/
theorem c3_order (cfg : Config) (crit : Criteria) (t : List Char)
    (hns : pyIsSpace t = false) :
    ((crit.output_orientation = 0 ∨ crit.output_orientation = 2) →
      handle_data cfg crit true t =
        applyConv cfg crit (applyPunc crit (applyQuote crit t))) ∧
    (crit.output_orientation = 1 →
      handle_data cfg crit true t =
        applyConv cfg crit (applyQuote crit (applyPunc crit t))) := by
  constructor
  · rintro (h | h) <;>
      simp [handle_data, applyConv, applyPunc, applyQuote, hns, h]
  · intro h
    simp [handle_data, applyConv, applyPunc, applyQuote, hns, h]

/-- C3 witness: a vertical presentation-form character is first mapped back
to its horizontal form by the punctuation table and the result is then
quote-remapped — the Horizontal orientation chains the two passes in that
order, and the converter runs last. -/
theorem c3_order_witness :
    handle_data cfgZhMark critHoriz true ['﹁'] =
      applyConv cfgZhMark critHoriz
        (applyQuote critHoriz (applyPunc critHoriz ['﹁'])) ∧
    handle_data cfgZhMark critHoriz true ['﹁'] = ['#', '“'] :=
  ⟨(c3_order cfgZhMark critHoriz ['﹁'] (by decide)).2 (by decide), by decide⟩

/-- C7: a non-empty all-whitespace text run is emitted exactly as received,
for every configuration (hence independently of the converter collaborator),
every criteria tuple and every position in the document. -/
theorem c7_whitespace_verbatim (cfg : Config) (crit : Criteria)
    (pre post : List Node) (t : List Char)
    (h1 : t ≠ []) (h2 : ∀ c ∈ t, isPySpace c = true) :
    processText cfg crit (pre ++ Node.data t :: post) =
      (runNodes cfg crit (initFlag crit) pre).2 ++ t ++
        (runNodes cfg crit (runNodes cfg crit (initFlag crit) pre).1 post).2 := by
  have hsp : pyIsSpace t = true := by
    have he : t.isEmpty = false := by
      cases t with
      | nil => exact absurd rfl h1
      | cons a l => rfl
    have ha : t.all isPySpace = true := List.all_eq_true.mpr fun x hx => h2 x hx
    simp [pyIsSpace, he, ha]
  have hdata : ∀ b, handle_data cfg crit b t = t := by
    intro b
    simp [handle_data, hsp]
  unfold processText
  rw [runNodes_append]
  have : runNodes cfg crit (runNodes cfg crit (initFlag crit) pre).1
      (Node.data t :: post) =
      ((runNodes cfg crit (runNodes cfg crit (initFlag crit) pre).1 post).1,
       handle_data cfg crit (runNodes cfg crit (initFlag crit) pre).1 t ++
         (runNodes cfg crit (runNodes cfg crit (initFlag crit) pre).1 post).2) := rfl
  rw [this, hdata]
  simp [List.append_assoc]

/-- C7 witness: a three-character whitespace run (space, newline, ideographic
space) surrounded by markup passes through unchanged even with conversion,
quote remapping and a punctuation table all active. -/
theorem c7_whitespace_verbatim_witness :
    processText cfgZhMark critAllOn
      ([Node.startTag "p" [] "<p>".data] ++
        Node.data [' ', '\n', '　'] :: [Node.endTag "p"]) =
      (runNodes cfgZhMark critAllOn (initFlag critAllOn)
        [Node.startTag "p" [] "<p>".data]).2 ++ [' ', '\n', '　'] ++
        (runNodes cfgZhMark critAllOn
          (runNodes cfgZhMark critAllOn (initFlag critAllOn)
            [Node.startTag "p" [] "<p>".data]).1 [Node.endTag "p"]).2 :=
  c7_whitespace_verbatim cfgZhMark critAllOn [Node.startTag "p" [] "<p>".data]
    [Node.endTag "p"] [' ', '\n', '　'] (by decide) (by decide)

/-- Comments, processing instructions, entity and character references and
declarations are emitted in their literal source form whatever the current
flag is; runs of such events reproduce their source text exactly. -/
lemma run_literal (cfg : Config) (crit : Criteria) (doc : List Node)
    (h : ∀ n ∈ doc, literalKind n = true) :
    ∀ b, (runNodes cfg crit b doc).2 = docSource doc := by
  induction doc with
  | nil => intro b; rfl
  | cons n ns ih =>
    intro b
    have hn : literalKind n = true := h n (List.mem_cons_self _ _)
    have hns : ∀ m ∈ ns, literalKind m = true :=
      fun m hm => h m (List.mem_cons_of_mem _ hm)
    have htail : (runNodes cfg crit (stepNode cfg crit b n).1 ns).2 =
        docSource ns := ih hns _
    have hhead : (stepNode cfg crit b n).2 = nodeSource n := by
      cases n <;> first
        | rfl
        | exact absurd hn (by simp [literalKind])
    calc (runNodes cfg crit b (n :: ns)).2
        = (stepNode cfg crit b n).2 ++
            (runNodes cfg crit (stepNode cfg crit b n).1 ns).2 := rfl
      _ = nodeSource n ++ docSource ns := by rw [hhead, htail]
      _ = docSource (n :: ns) := by simp [docSource]

/-- C9: for every document consisting of comments (sentinel comments
included), entity references, numeric character references, processing
instructions and declarations, and for every configuration and criteria,
`processText` re-emits each event in its original literal textual form. -/
theorem c9_literal_reemission (cfg : Config) (crit : Criteria)
    (doc : List Node) (h : ∀ n ∈ doc, literalKind n = true) :
    processText cfg crit doc = docSource doc :=
  run_literal cfg crit doc h (initFlag crit)

/-- C9 witness: a document of a start-sentinel comment, an entity reference,
a character reference, a processing instruction and a declaration passes
through verbatim under selected-text scope with all rewrites active. -/
theorem c9_literal_reemission_witness :
    processText cfgZhMark critAllOn
      [Node.comment " PI_SELTEXT_START ".data, Node.entityRef "amp".data,
       Node.charRef "x4e2d".data, Node.pi "xml version=\"1.0\"".data,
       Node.decl "DOCTYPE html".data] =
      docSource
        [Node.comment " PI_SELTEXT_START ".data, Node.entityRef "amp".data,
         Node.charRef "x4e2d".data, Node.pi "xml version=\"1.0\"".data,
         Node.decl "DOCTYPE html".data] :=
  c9_literal_reemission cfgZhMark critAllOn
    [Node.comment " PI_SELTEXT_START ".data, Node.entityRef "amp".data,
     Node.charRef "x4e2d".data, Node.pi "xml version=\"1.0\"".data,
     Node.decl "DOCTYPE html".data] (by decide)

/-- Criteria: no conversion, but trad-to-simp quote remapping selected. -/
def critQuoteOnly : Criteria := { critBase with quotation_type := 1 }

/-- C1 counterexample: with conversion mode NoChange but the quote policy
set, `processText` still remaps quote glyphs, so the output differs from the
document: a lone corner-bracket text run comes back as a curly quote. -/
theorem c1_counterexample :
    processText cfgPlain critQuoteOnly [Node.data ['「']] = ['“'] ∧
    processText cfgPlain critQuoteOnly [Node.data ['「']] ≠
      docSource [Node.data ['「']] := by
  decide

/-- With conversion mode, quote policy and punctuation matcher all off,
`handle_data` is the identity for either flag value. -/
lemma handle_data_trivial (cfg : Config) (crit : Criteria) (b : Bool)
    (t : List Char) (hmode : crit.conversion_type = 0)
    (hquote : crit.quotation_type = 0) (hpunc : crit.punc_regex = none) :
    handle_data cfg crit b t = t := by
  cases b
  · exact handle_data_not_converting cfg crit t
  · simp [handle_data, hmode, hquote, hpunc]

/-- C1 (amended): with conversion mode NoChange, quote policy NoChange, no
punctuation matcher and the stylesheet-forcing flag off, `processText`
reproduces any document whose `html` start tags already carry an `xml:lang`
attribute. -/
theorem c1_nochange_amended (cfg : Config) (crit : Criteria) (doc : List Node)
    (hmode : crit.conversion_type = 0) (hquote : crit.quotation_type = 0)
    (hpunc : crit.punc_regex = none) (hfs : cfg.force_stylesheet = false)
    (hroot : ∀ tag attrs lit, Node.startTag tag attrs lit ∈ doc →
      tag = "html" → attrs.contains "xml:lang" = true) :
    processText cfg crit doc = docSource doc := by
  suffices h : ∀ b, (runNodes cfg crit b doc).2 = docSource doc from
    h (initFlag crit)
  induction doc with
  | nil => intro b; rfl
  | cons n ns ih =>
    intro b
    have hns : ∀ tag attrs lit, Node.startTag tag attrs lit ∈ ns →
        tag = "html" → attrs.contains "xml:lang" = true :=
      fun tag attrs lit hm => hroot tag attrs lit (List.mem_cons_of_mem _ hm)
    have htail : (runNodes cfg crit (stepNode cfg crit b n).1 ns).2 =
        docSource ns := ih hns _
    have hhead : (stepNode cfg crit b n).2 = nodeSource n := by
      cases n with
      | startTag tag attrs lit =>
        have hsub : (if b = true ∧ crit.conversion_type ≠ 0 ∧
            cfg.language ≠ none then zhSub (pyOptStr cfg.language) lit
            else lit) = lit := by
          simp [hmode]
        show handle_starttag cfg crit b tag attrs lit = lit
        rw [handle_starttag, hsub, rootLangAppend]
        by_cases htag : tag = "html"
        · have hc := hroot tag attrs lit (List.mem_cons_self _ _) htag
          have hmem : "xml:lang" ∈ attrs := by simpa using hc
          simp [hmem]
        · simp [htag]
      | endTag tag =>
        show handle_endtag cfg tag = nodeSource (Node.endTag tag)
        simp [handle_endtag, nodeSource, hfs]
      | startEndTag tag attrs lit =>
        show handle_startendtag cfg crit tag attrs lit = lit
        simp [handle_startendtag, hmode]
      | data t => exact handle_data_trivial cfg crit b t hmode hquote hpunc
      | comment d => rfl
      | pi d => rfl
      | entityRef m => rfl
      | charRef m => rfl
      | decl d => rfl
      | unknownDecl d => rfl
    calc (runNodes cfg crit b (n :: ns)).2
        = (stepNode cfg crit b n).2 ++
            (runNodes cfg crit (stepNode cfg crit b n).1 ns).2 := rfl
      _ = nodeSource n ++ docSource ns := by rw [hhead, htail]
      _ = docSource (n :: ns) := by simp [docSource]

/-- C1 (amended) witness: a document with an `html` root tag carrying
`xml:lang`, Chinese text, an end tag and a comment is reproduced verbatim
under the all-NoChange criteria. -/
theorem c1_nochange_amended_witness :
    processText cfgPlain critBase
      [Node.startTag "html" ["xml:lang"] "<html xml:lang=\"zh\">".data,
       Node.data "早安「你好」".data, Node.endTag "html"] =
      docSource
        [Node.startTag "html" ["xml:lang"] "<html xml:lang=\"zh\">".data,
         Node.data "早安「你好」".data, Node.endTag "html"] :=
  c1_nochange_amended cfgPlain critBase
    [Node.startTag "html" ["xml:lang"] "<html xml:lang=\"zh\">".data,
     Node.data "早安「你好」".data, Node.endTag "html"]
    (by decide) (by decide) (by decide) (by decide)
    (by
      intro tag attrs lit hm htag
      rcases List.mem_cons.mp hm with h | h
      · cases h; decide
      · rcases List.mem_cons.mp h with h2 | h2
        · cases h2
        · rcases List.mem_cons.mp h2 with h3 | h3
          · cases h3
          · cases h3)

/-- Criteria: selected-files scope, trad-to-simp conversion. -/
def critFileT2S : Criteria :=
  { critBase with input_source := 1, conversion_type := 1 }

/-- Criteria: selected-files scope, simp-to-trad conversion. -/
def critBookS2T : Criteria := { critBase with conversion_type := 2 }

/-- C5 counterexample: with selected-files scope (input_source 1) the
converting flag is on, the mode is TradToSimp and a language tag is set, yet
a self-closing tag carrying lang="zh" is emitted verbatim — its language
attribute is NOT substituted (the substituted form differs), because
`handle_startendtag` tests `INPUT_SOURCE == 0` instead of the converting
flag. -/
theorem c5_counterexample :
    initFlag critFileT2S = true ∧
    processText cfgZh critFileT2S
      [Node.startEndTag "img" ["lang"] "<img lang=\"zh\"/>".data] =
      "<img lang=\"zh\"/>".data ∧
    zhSub (pyOptStr cfgZh.language) "<img lang=\"zh\"/>".data =
      "<img lang=\"zh-CN\"/>".data ∧
    ("<img lang=\"zh\"/>".data : List Char) ≠ "<img lang=\"zh-CN\"/>".data := by
  decide

/-- C5 (amended): when the mode is not NoChange and a language tag is set,
an open tag processed while converting has every case-insensitive
`lang="zh"`/`lang="zh-*"` occurrence of its literal text substituted with
the resolved tag (then the root-tag append step runs); a self-closing tag is
substituted the same way exactly when the input source is the whole document
set — regardless of the converting flag — and is emitted verbatim
otherwise. -/
theorem c5_lang_sub_amended (cfg : Config) (crit : Criteria) (tag : String)
    (attrs : List String) (lit : List Char)
    (hmode : crit.conversion_type ≠ 0) (hlang : cfg.language ≠ none) :
    handle_starttag cfg crit true tag attrs lit =
      rootLangAppend cfg tag attrs (zhSub (pyOptStr cfg.language) lit) ∧
    (crit.input_source = 0 →
      handle_startendtag cfg crit tag attrs lit =
        zhSub (pyOptStr cfg.language) lit) ∧
    (crit.input_source ≠ 0 →
      handle_startendtag cfg crit tag attrs lit = lit) := by
  refine ⟨?_, fun h0 => ?_, fun h0 => ?_⟩
  · simp [handle_starttag, hmode, hlang]
  · simp [handle_startendtag, h0, hmode, hlang]
  · simp [handle_startendtag, h0]

/-- C5 (amended) witness: an open tag written `lang="ZH"` is substituted
case-insensitively to the resolved `lang="zh-CN"`, and a self-closing tag is
substituted under whole-book scope. -/
theorem c5_lang_sub_amended_witness :
    handle_starttag cfgZh critBookS2T true "p" ["lang"] "<p lang=\"ZH\">".data =
      rootLangAppend cfgZh "p" ["lang"]
        (zhSub (pyOptStr cfgZh.language) "<p lang=\"ZH\">".data) ∧
    zhSub (pyOptStr cfgZh.language) "<p lang=\"ZH\">".data =
      "<p lang=\"zh-CN\">".data ∧
    handle_startendtag cfgZh critBookS2T "img" ["lang"]
      "<img lang=\"zh-TW\"/>".data = "<img lang=\"zh-CN\"/>".data :=
  ⟨(c5_lang_sub_amended cfgZh critBookS2T "p" ["lang"] "<p lang=\"ZH\">".data
      (by decide) (by decide)).1,
   by decide,
   by
    rw [(c5_lang_sub_amended cfgZh critBookS2T "img" ["lang"]
      "<img lang=\"zh-TW\"/>".data (by decide) (by decide)).2.1 (by decide)]
    decide⟩

/-- C6 (code defect): with criteria whose resolved language tag is the None
sentinel (here the all-NoChange criteria), `handle_starttag` still appends
`xml:None` to a root `html` tag lacking `xml:lang`; reparsing that output
yields the attribute name `xml:none`, which the second pass does not detect
as `xml:lang`, so it appends a second copy instead of leaving the tag
alone. -/
theorem c6_xml_none_duplicated :
    processText cfgPlain critBase [Node.startTag "html" [] "<html>".data] =
      "<html xml:None>".data ∧
    processText cfgPlain critBase
      [Node.startTag "html" ["xml:none"] "<html xml:None>".data] =
      "<html xml:None xml:None>".data := by
  decide

/-- Criteria: selected-text scope, trad-to-simp conversion and quotes. -/
def critSel2 : Criteria :=
  { critBase with input_source := 2, conversion_type := 1, quotation_type := 1 }

/-- C2: under selected-text scope the flag starts off, so a text run with no
start-sentinel comment before it is emitted exactly as received; and a text
run lying after a start-sentinel comment with no end-sentinel comment in
between (in particular when no end sentinel exists at all) is processed by
`handle_data` with the converting flag on — the full quote, punctuation and
script-conversion pipeline. -/
theorem c2_scope (cfg : Config) (crit : Criteria)
    (h2 : crit.input_source = 2) :
    (∀ pre t post,
      (∀ d, Node.comment d ∈ pre → pyStrip d ≠ seltext_start_tag) →
      processText cfg crit (pre ++ Node.data t :: post) =
        (runNodes cfg crit false pre).2 ++ t ++
          (runNodes cfg crit false post).2) ∧
    (∀ pre s mid t post, pyStrip s = seltext_start_tag →
      (∀ d, Node.comment d ∈ mid → pyStrip d ≠ seltext_end_tag) →
      processText cfg crit
          (pre ++ Node.comment s :: (mid ++ Node.data t :: post)) =
        (runNodes cfg crit false pre).2 ++
          ("<!--".data ++ s ++ "-->".data) ++
          (runNodes cfg crit true mid).2 ++
          handle_data cfg crit true t ++
          (runNodes cfg crit true post).2) := by
  have hinit : initFlag crit = false := by simp [initFlag, h2]
  constructor
  · intro pre t post hpre
    have hflag := flag_false_of_no_start cfg crit pre hpre
    simp only [processText, hinit, runNodes_append, hflag, runNodes, stepNode,
      handle_data_not_converting, List.append_assoc]
  · intro pre s mid t post hs hmid
    have hcf : ∀ b, commentFlag crit b s = true := by
      intro b; simp [commentFlag, h2, hs]
    have hmidflag := flag_true_of_no_end cfg crit mid hmid
    simp only [processText, hinit, runNodes_append, runNodes, stepNode, hcf,
      hmidflag, List.append_assoc]

/-- C2 witness: in selected-text scope a corner bracket after the start
sentinel goes through the full pipeline (quote remap then the marking
converter), while the sentinel comment itself is re-emitted verbatim. -/
theorem c2_scope_witness :
    processText cfgZhMark critSel2
        ([] ++ Node.comment " PI_SELTEXT_START ".data ::
          ([] ++ Node.data ['「'] :: [])) =
      (runNodes cfgZhMark critSel2 false []).2 ++
        ("<!--".data ++ " PI_SELTEXT_START ".data ++ "-->".data) ++
        (runNodes cfgZhMark critSel2 true []).2 ++
        handle_data cfgZhMark critSel2 true ['「'] ++
        (runNodes cfgZhMark critSel2 true []).2 ∧
    processText cfgZhMark critSel2
        [Node.comment " PI_SELTEXT_START ".data, Node.data ['「']] =
      "<!-- PI_SELTEXT_START -->#“".data :=
  ⟨(c2_scope cfgZhMark critSel2 (by decide)).2 [] " PI_SELTEXT_START ".data
      [] ['「'] [] (by decide) (fun d hd => absurd hd (List.not_mem_nil _)),
   by decide⟩

/-- C10: in every criteria tuple built by `getCriteria` from preferences
whose omission string is a repetition-free selection of master-table marks
(which is what both writers of the preference produce: the punctuation
dialog saves a subset of the dictionary keys, and the shipped default is
one), the punctuation table and matcher are both present or both absent;
they are present only when the punctuation flag is set and the orientation
is not NoChange; and when every master mark is omitted both are absent. -/
theorem c10_punc_invariant (p : Prefs) (hnd : p.punc_omits.Nodup)
    (hsub : ∀ c ∈ p.punc_omits, c ∈ h2vKeys) :
    ((getCriteria p).punc_regex = none ↔ (getCriteria p).punc_dict = []) ∧
    ((getCriteria p).punc_regex ≠ none →
      p.update_punctuation = true ∧ p.output_orientation ≠ 0) ∧
    ((∀ k ∈ h2vKeys, k ∈ p.punc_omits) →
      (getCriteria p).punc_regex = none ∧ (getCriteria p).punc_dict = []) := by
  have hkeysnd : h2vKeys.Nodup := by decide
  have hlen_eq : h2vKeys.length = h2vMaster.length := by simp [h2vKeys]
  have homle : p.punc_omits.length ≤ h2vMaster.length := by
    have h0 := (List.Nodup.subperm hnd fun c hc => hsub c hc).length_le
    rw [hlen_eq] at h0
    exact h0
  by_cases hcond : p.update_punctuation = true ∧
      p.punc_omits.length ≠ h2vMaster.length
  · have hnotall : ¬ ∀ k ∈ h2vKeys, k ∈ p.punc_omits := by
      intro hall2
      have h1' := (List.Nodup.subperm hkeysnd fun k hk => hall2 k hk).length_le
      rw [hlen_eq] at h1'
      exact hcond.2 (le_antisymm homle h1')
    have hne : punc_h2v p.punc_omits ≠ [] := by
      intro hempty
      apply hnotall
      intro k hk
      rcases List.mem_map.mp hk with ⟨kv, hkv, rfl⟩
      by_contra hnc
      have hmemf : kv ∈ punc_h2v p.punc_omits :=
        List.mem_filter.mpr ⟨hkv, by simp [hnc]⟩
      rw [hempty] at hmemf
      exact List.not_mem_nil _ hmemf
    rw [getCriteria, if_pos hcond]
    by_cases h1 : p.output_orientation = 1
    · rw [if_pos h1]
      refine ⟨⟨fun hr => ?_, fun hd => ?_⟩,
        fun _ => ⟨hcond.1, by simp [h1]⟩, fun hall2 => absurd hall2 hnotall⟩
      · exact absurd hr (by simp)
      · exact absurd (List.map_eq_nil_iff.mp hd) hne
    · rw [if_neg h1]
      by_cases hv : p.output_orientation = 2
      · rw [if_pos hv]
        refine ⟨⟨fun hr => ?_, fun hd => ?_⟩,
          fun _ => ⟨hcond.1, by simp [hv]⟩, fun hall2 => absurd hall2 hnotall⟩
        · exact absurd hr (by simp)
        · exact absurd hd hne
      · rw [if_neg hv]
        exact ⟨⟨fun _ => rfl, fun _ => rfl⟩, fun hr => absurd rfl hr,
          fun _ => ⟨rfl, rfl⟩⟩
  · rw [getCriteria, if_neg hcond]
    exact ⟨⟨fun _ => rfl, fun _ => rfl⟩, fun hr => absurd rfl hr,
      fun _ => ⟨rfl, rfl⟩⟩

/-- Preferences used to witness C10: vertical orientation, punctuation
updates on, two marks omitted. -/
def prefsW : Prefs :=
  { input_source := 0, conversion_type := 1, input_locale := 0, output_locale := 0, use_target_phrases := true, quotation_type := 0, output_orientation := 2, update_punctuation := true, punc_omits := ['。', '、'] }

/-- C10 witness: with two of the 32 marks omitted, the built criteria carry
a 30-entry table together with its matcher. -/
theorem c10_punc_invariant_witness :
    (((getCriteria prefsW).punc_regex = none ↔
        (getCriteria prefsW).punc_dict = []) ∧
      ((getCriteria prefsW).punc_regex ≠ none →
        prefsW.update_punctuation = true ∧ prefsW.output_orientation ≠ 0) ∧
      ((∀ k ∈ h2vKeys, k ∈ prefsW.punc_omits) →
        (getCriteria prefsW).punc_regex = none ∧
          (getCriteria prefsW).punc_dict = [])) ∧
    (getCriteria prefsW).punc_dict.length = 30 ∧
    (getCriteria prefsW).punc_regex ≠ none :=
  ⟨c10_punc_invariant prefsW (by decide) (by decide), by decide, by decide⟩

end TradSimp
